import Mathlib

/- Shallow embedding of the Task-12 voice-agent server (src/Task-12/main.py):
   the in-memory session store (chat_history_store and its helper functions)
   and the POST /agent/chat endpoint pipeline (agent_chat_with_history), with
   the three external adapters (AssemblyAI transcription, Gemini generation,
   Murf speech synthesis) modelled by outcome values supplied as input.
   Timestamps are abstract instants (Nat). -/

/-- Python str.strip as used in the source: whitespace removed at both ends. -/
def pyStrip (s : String) : String :=
  String.mk (((s.data.dropWhile Char.isWhitespace).reverse.dropWhile Char.isWhitespace).reverse)

/-- Python s[:n] slicing on text: the first n code points of s. -/
def pyTake (s : String) (n : Nat) : String :=
  String.mk (s.data.take n)

/-- One stored chat message: role, content, timestamp (main.py lines 167-171). -/
structure Message where
  role : String
  content : String
  timestamp : Nat
  deriving DecidableEq, Repr

/-- The in-memory chat history store, a dict from session_id to message list,
in insertion order (main.py line 57). -/
abbrev ChatStore : Type := List (String × List Message)

/-- Dict membership and indexing on the store: the value at the first entry
whose key is the given session_id, if any. -/
def lookupSession : ChatStore → String → Option (List Message)
  | [], _ => none
  | (sid, messages) :: rest, s =>
      if sid = s then some messages else lookupSession rest s

/-- In-place update of a dict entry: append a message to the entry keyed by
the given session_id. -/
def appendToSession : ChatStore → String → Message → ChatStore
  | [], _, _ => []
  | (sid, messages) :: rest, s, m =>
      if sid = s then (sid, messages ++ [m]) :: appendToSession rest s m
      else (sid, messages) :: appendToSession rest s m

/-- Dict key deletion: drop every entry keyed by the given session_id. -/
def removeSession : ChatStore → String → ChatStore
  | [], _ => []
  | (sid, messages) :: rest, s =>
      if sid = s then removeSession rest s
      else (sid, messages) :: removeSession rest s

/-- get_chat_history (main.py lines 158-160): chat_history_store.get(session_id, []). -/
def get_chat_history (store : ChatStore) (session_id : String) : List Message :=
  match lookupSession store session_id with
  | some messages => messages
  | none => []

/-- add_message_to_history (main.py lines 162-173): create the session on first
use (new dict key goes at the end, in insertion order), then append the
message to the session entry. -/
def add_message_to_history (store : ChatStore) (session_id role content : String)
    (t : Nat) : ChatStore :=
  let message : Message := { role := role, content := content, timestamp := t }
  match lookupSession store session_id with
  | some _ => appendToSession store session_id message
  | none => store ++ [(session_id, [message])]

/-- clear_chat_history (main.py lines 175-180): delete the session entry and
return true if it existed, otherwise return false. -/
def clear_chat_history (store : ChatStore) (session_id : String) : Bool × ChatStore :=
  match lookupSession store session_id with
  | some _ => (true, removeSession store session_id)
  | none => (false, store)

/-- get_session_message_count (main.py lines 182-184). -/
def get_session_message_count (store : ChatStore) (session_id : String) : Nat :=
  (get_chat_history store session_id).length

/-- Session summary rows produced by get_all_sessions (main.py lines 186-197). -/
structure SessionSummary where
  session_id : String
  message_count : Nat
  created_at : Nat
  updated_at : Nat
  deriving DecidableEq, Repr

/-- get_all_sessions (main.py lines 186-197): one summary per session that has
at least one message, in store iteration order; created_at and updated_at are
the first and last message timestamps. -/
def get_all_sessions : ChatStore → List SessionSummary
  | [] => []
  | (_, []) :: rest => get_all_sessions rest
  | (sid, m :: ms) :: rest =>
      { session_id := sid,
        message_count := (m :: ms).length,
        created_at := m.timestamp,
        updated_at := ((m :: ms).getLastD m).timestamp } :: get_all_sessions rest

/-- FALLBACK_RESPONSES (main.py lines 60-67). -/
def FALLBACK_RESPONSES (key : String) : String :=
  if key = "stt_error" then
    "I\x27m sorry, I\x27m having trouble understanding your audio right now. Please try speaking again or check your microphone."
  else if key = "llm_error" then
    "I\x27m having trouble connecting to my AI brain right now. Please try again in a moment."
  else if key = "tts_error" then
    "I understand you, but I\x27m having trouble generating speech right now."
  else if key = "general_error" then
    "I\x27m experiencing some technical difficulties. Please try again in a moment."
  else if key = "no_speech" then
    "I didn\x27t hear anything. Could you please speak louder or closer to your microphone?"
  else if key = "api_key_missing" then
    "The service is temporarily unavailable due to configuration issues. Please try again later."
  else ""

/-- Chat transcription-timeout apology (main.py line 665). -/
def TRANSCRIPTION_TIMEOUT_TEXT : String :=
  "Your audio is taking too long to process. Please try with a shorter recording."

/-- Generation-timeout apology substituted for the reply (main.py line 715). -/
def LLM_TIMEOUT_TEXT : String :=
  "I\x27m taking a bit longer to think. Let me give you a quick response for now."

/-- Fixed continuation suffix appended on truncation (main.py line 711). -/
def TRUNCATION_SUFFIX : String :=
  "... I have more to share, but let me pause here."

/-- Fixed system preamble of the generation prompt (main.py line 684). -/
def SYSTEM_PREAMBLE : String :=
  "You are a helpful AI assistant. Please respond in a conversational and concise manner (keep it under 2500 characters to fit TTS limits).\n\nConversation history:\n"

/-- Fixed tail of the generation prompt after the new utterance (main.py line 694). -/
def PROMPT_TAIL : String :=
  "\n\nPlease respond to the user\x27s latest message."

/-- Which adapter credentials are configured in the environment. -/
structure Env where
  assemblyai_key : Bool
  gemini_key : Bool
  murf_key : Bool
  deriving DecidableEq, Repr

/-- Outcome of the one transcription call of a request (main.py lines 645-668):
timeout, adapter-reported error status, raised exception, or a completed
transcription text (possibly blank). The missing-credential case is decided by
Env before the call. -/
inductive TranscriptionOutcome where
  | timeout
  | adapterError
  | exception
  | success (text : String)
  deriving DecidableEq, Repr

/-- Outcome of the one generation call of a request (main.py lines 697-718):
timeout, raised exception, or a completed response text (possibly empty). -/
inductive LLMOutcome where
  | timeout
  | exception
  | success (text : String)
  deriving DecidableEq, Repr

/-- Outcome of the one synthesis call of a request (main.py lines 760-814):
an HTTP response with status code and optional audioFile field, a timeout, or
a raised exception. -/
inductive TTSOutcome where
  | http (code : Nat) (audioFile : Option String)
  | timeout
  | exception
  deriving DecidableEq, Repr

/-- The behaviour the three external adapters would exhibit if called during
the request; fallback_tts is the audio URL the extra synthesis call made by
generate_fallback_audio would yield (none unless that call returns HTTP 200
with an audioFile). -/
structure AdapterBehavior where
  transcription : TranscriptionOutcome
  llm : LLMOutcome
  tts : TTSOutcome
  fallback_tts : Option String
  deriving DecidableEq, Repr

/-- One external adapter invocation, recorded in request order. -/
inductive AdapterCall where
  | transcribe
  | llm (prompt : String)
  | tts (text : String)
  deriving DecidableEq, Repr

/-- Whether a recorded call is a generation (LLM) call. -/
def isLLMCall : AdapterCall → Bool
  | AdapterCall.llm _ => true
  | _ => false

/-- Whether a recorded call is a synthesis (TTS) call. -/
def isTTSCall : AdapterCall → Bool
  | AdapterCall.tts _ => true
  | _ => false

/-- The uniform response shape of /agent/chat. Fields absent from a given
branch of the source are none / false here. -/
structure AgentChatResponse where
  transcription : String
  llm_response : String
  audio_url : Option String
  session_id : Option String
  message_count : Nat
  status : String
  message : Option String
  fallback_text : Option String
  error_audio : Bool
  deriving DecidableEq, Repr

/-- generate_fallback_audio (main.py lines 69-117): try one synthesis call for
the error message when the Murf credential exists, then return the fixed
fallback-shaped response with message_count 0 and status fallback. Also
returns the synthesis calls it made. -/
def generate_fallback_audio (env : Env) (fallback_tts : Option String)
    (message : String) : AgentChatResponse × List AdapterCall :=
  let error_audio_url : Option String := if env.murf_key then fallback_tts else none
  ({ transcription := "System Error",
     llm_response := message,
     audio_url := error_audio_url,
     session_id := none,
     message_count := 0,
     status := "fallback",
     message := none,
     fallback_text := some message,
     error_audio := true },
   if env.murf_key then [AdapterCall.tts message] else [])

/-- The last-10 slice of the history used as context (main.py line 687):
chat_history[-10:] if len(chat_history) > 10 else chat_history. -/
def recent_messages (chat_history : List Message) : List Message :=
  if chat_history.length > 10 then chat_history.drop (chat_history.length - 10)
  else chat_history

/-- Rendering of history messages into the prompt (main.py lines 688-692):
each message on its own line, labeled User or Assistant by role. -/
def render_history : List Message → String
  | [] => ""
  | m :: rest =>
      (if m.role = "user" then "User: " ++ m.content ++ "\n"
       else "Assistant: " ++ m.content ++ "\n") ++ render_history rest

/-- The full generation prompt (main.py lines 684-694): fixed preamble, the
last-10 slice of the prior history labeled by role, then the new utterance
and the fixed tail. -/
def build_conversation_context (chat_history : List Message) (transcribed_text : String) : String :=
  SYSTEM_PREAMBLE ++ render_history (recent_messages chat_history)
    ++ "User: " ++ transcribed_text ++ PROMPT_TAIL

/-- Truncation policy applied to the stripped reply (main.py lines 710-711):
over 3000 code points, keep the first 2900 and append the fixed suffix. -/
def truncate_reply (llm_text : String) : String :=
  if llm_text.length > 3000 then pyTake llm_text 2900 ++ TRUNCATION_SUFFIX
  else llm_text

/-- The generation stage (main.py lines 677-718): resolve the reply text from
the credential state and the adapter outcome, substituting fixed fallback
texts on failure; also return the generation calls made. -/
def generation_stage (env : Env) (beh : AdapterBehavior)
    (chat_history : List Message) (transcribed_text : String) :
    String × List AdapterCall :=
  if env.gemini_key = false then (FALLBACK_RESPONSES "llm_error", [])
  else
    let conversation_context := build_conversation_context chat_history transcribed_text
    match beh.llm with
    | LLMOutcome.timeout => (LLM_TIMEOUT_TEXT, [AdapterCall.llm conversation_context])
    | LLMOutcome.exception => (FALLBACK_RESPONSES "llm_error", [AdapterCall.llm conversation_context])
    | LLMOutcome.success rtext =>
        if rtext = "" then (FALLBACK_RESPONSES "llm_error", [AdapterCall.llm conversation_context])
        else (truncate_reply (pyStrip rtext), [AdapterCall.llm conversation_context])

/-- The per-branch fallback_text of the synthesis stage (main.py lines 740,
788, 801, 813): transcription and reply quoted, then a branch-specific tag. -/
def chat_fallback_text (transcribed_text llm_text tag : String) : String :=
  "Your message: \x27" ++ transcribed_text ++ "\x27. My response: \x27"
    ++ llm_text ++ "\x27 " ++ tag

/-- The response of the synthesis failure branches (main.py lines 732-741,
780-789, 793-802, 805-814): partial_success, no audio, fallback_text present. -/
def synthesis_failure_response (session_id transcribed_text llm_text : String)
    (message_count : Nat) (msg tag : String) : AgentChatResponse :=
  { transcription := transcribed_text,
    llm_response := llm_text,
    audio_url := none,
    session_id := some session_id,
    message_count := message_count,
    status := "partial_success",
    message := some msg,
    fallback_text := some (chat_fallback_text transcribed_text llm_text tag),
    error_audio := false }

/-- The synthesis stage of the chat pipeline (main.py lines 726-814): skip
with partial_success when the Murf credential is absent, otherwise one
synthesis call whose HTTP 200 outcome yields status success and whose failure
outcomes yield the per-branch partial_success responses. Also returns the
synthesis calls made. -/
def synthesis_stage (env : Env) (beh : AdapterBehavior)
    (session_id transcribed_text llm_text : String) (message_count : Nat) :
    AgentChatResponse × List AdapterCall :=
  if env.murf_key = false then
    (synthesis_failure_response session_id transcribed_text llm_text message_count
       "Conversation processed but audio generation unavailable"
       "(Audio generation temporarily unavailable)", [])
  else
    match beh.tts with
    | TTSOutcome.http code audioFile =>
        if code = 200 then
          ({ transcription := transcribed_text,
             llm_response := llm_text,
             audio_url := audioFile,
             session_id := some session_id,
             message_count := message_count,
             status := "success",
             message := none,
             fallback_text := none,
             error_audio := false },
           [AdapterCall.tts llm_text])
        else
          (synthesis_failure_response session_id transcribed_text llm_text message_count
             "Conversation processed but audio generation failed"
             "(Audio generation failed)",
           [AdapterCall.tts llm_text])
    | TTSOutcome.timeout =>
        (synthesis_failure_response session_id transcribed_text llm_text message_count
           "Audio generation timed out"
           "(Audio generation taking too long)",
         [AdapterCall.tts llm_text])
    | TTSOutcome.exception =>
        (synthesis_failure_response session_id transcribed_text llm_text message_count
           "Audio generation failed"
           "(Audio generation temporarily unavailable)",
         [AdapterCall.tts llm_text])

/-- agent_chat_with_history (main.py lines 630-821): the whole request
pipeline. Returns the response, the store after the request, and the adapter
calls made, in order. t1 and t2 are the timestamps of the two appends. -/
def agent_chat_with_history (env : Env) (beh : AdapterBehavior)
    (store : ChatStore) (session_id : String) (t1 t2 : Nat) :
    AgentChatResponse × ChatStore × List AdapterCall :=
  if env.assemblyai_key = false then
    let r := generate_fallback_audio env beh.fallback_tts (FALLBACK_RESPONSES "api_key_missing")
    (r.1, store, r.2)
  else
    match beh.transcription with
    | TranscriptionOutcome.timeout =>
        let r := generate_fallback_audio env beh.fallback_tts TRANSCRIPTION_TIMEOUT_TEXT
        (r.1, store, AdapterCall.transcribe :: r.2)
    | TranscriptionOutcome.adapterError =>
        let r := generate_fallback_audio env beh.fallback_tts (FALLBACK_RESPONSES "stt_error")
        (r.1, store, AdapterCall.transcribe :: r.2)
    | TranscriptionOutcome.exception =>
        let r := generate_fallback_audio env beh.fallback_tts (FALLBACK_RESPONSES "stt_error")
        (r.1, store, AdapterCall.transcribe :: r.2)
    | TranscriptionOutcome.success transcribed_text =>
        if pyStrip transcribed_text = "" then
          let r := generate_fallback_audio env beh.fallback_tts (FALLBACK_RESPONSES "no_speech")
          (r.1, store, AdapterCall.transcribe :: r.2)
        else
          let chat_history := get_chat_history store session_id
          let store1 := add_message_to_history store session_id "user" transcribed_text t1
          let gen := generation_stage env beh chat_history transcribed_text
          let llm_text := gen.1
          let store2 := add_message_to_history store1 session_id "assistant" llm_text t2
          let message_count := get_session_message_count store2 session_id
          let syn := synthesis_stage env beh session_id transcribed_text llm_text message_count
          (syn.1, store2, AdapterCall.transcribe :: (gen.2 ++ syn.2))

/-- One store operation: a message append or a session clear. -/
inductive StoreOp where
  | append (session_id role content : String) (t : Nat)
  | clear (session_id : String)
  deriving DecidableEq, Repr

/-- Apply one store operation. -/
def applyOp (store : ChatStore) : StoreOp → ChatStore
  | StoreOp.append sid role content t => add_message_to_history store sid role content t
  | StoreOp.clear sid => (clear_chat_history store sid).2

/-- Apply a sequence of store operations in order. -/
def applyOps (store : ChatStore) : List StoreOp → ChatStore
  | [] => store
  | op :: rest => applyOps (applyOp store op) rest

/-- Replay a sequence of (role, content, timestamp) appends to one session. -/
def replayAppends (store : ChatStore) (session_id : String) :
    List (String × String × Nat) → ChatStore
  | [] => store
  | (role, content, t) :: rest =>
      replayAppends (add_message_to_history store session_id role content t) session_id rest

/-- The message an append stores. -/
def mkMessage (p : String × String × Nat) : Message :=
  { role := p.1, content := p.2.1, timestamp := p.2.2 }

/-- The last-10 slice of main.py line 687, generalized from 10 to k. -/
def recent_window (chat_history : List Message) (k : Nat) : List Message :=
  if chat_history.length > k then chat_history.drop (chat_history.length - k)
  else chat_history

/-- The transcription stage fails: missing credential, timeout, adapter error,
raised exception, or a blank transcription text (main.py lines 638-668). -/
def transcriptionFails (env : Env) (beh : AdapterBehavior) : Prop :=
  env.assemblyai_key = false ∨
  beh.transcription = TranscriptionOutcome.timeout ∨
  beh.transcription = TranscriptionOutcome.adapterError ∨
  beh.transcription = TranscriptionOutcome.exception ∨
  ∃ t, beh.transcription = TranscriptionOutcome.success t ∧ pyStrip t = ""

/-- The synthesis call fails: non-200 HTTP status, timeout, or exception. -/
def ttsFails : TTSOutcome → Prop
  | TTSOutcome.http code _ => code ≠ 200
  | TTSOutcome.timeout => True
  | TTSOutcome.exception => True

/-- The needle occurs contiguously inside the haystack. -/
def containsText (hay needle : String) : Prop :=
  ∃ pre post, hay = pre ++ needle ++ post

/-- Every session entry of the store holds a non-empty message list. -/
def storeInvariant (store : ChatStore) : Prop :=
  ∀ e ∈ store, e.2 ≠ []

/-- Appending entries on the right does not hide an absent key. -/
theorem lookupSession_append_right (store l : ChatStore) (sid : String)
    (h : lookupSession store sid = none) :
    lookupSession (store ++ l) sid = lookupSession l sid := by
  induction store with
  | nil => rfl
  | cons e rest ih =>
      obtain ⟨k, vs⟩ := e
      by_cases hk : k = sid
      · simp [lookupSession, hk] at h
      · simp only [lookupSession, hk, if_false] at h
        simpa [lookupSession, hk] using ih h

/-- Appending a message to a present session updates its stored list. -/
theorem lookupSession_appendToSession_self (store : ChatStore) (sid : String)
    (m : Message) (ms : List Message) (h : lookupSession store sid = some ms) :
    lookupSession (appendToSession store sid m) sid = some (ms ++ [m]) := by
  induction store with
  | nil => simp [lookupSession] at h
  | cons e rest ih =>
      obtain ⟨k, vs⟩ := e
      by_cases hk : k = sid
      · simp only [lookupSession, hk, if_true, Option.some.injEq] at h
        simp [appendToSession, lookupSession, hk, h]
      · simp only [lookupSession, hk, if_false] at h
        simpa [appendToSession, lookupSession, hk] using ih h

/-- One append extends the session history by exactly the new message. -/
theorem get_chat_history_add_self (store : ChatStore) (sid role content : String) (t : Nat) :
    get_chat_history (add_message_to_history store sid role content t) sid =
      get_chat_history store sid ++ [{ role := role, content := content, timestamp := t }] := by
  unfold add_message_to_history get_chat_history
  cases hl : lookupSession store sid with
  | none =>
      simp only [hl]
      rw [lookupSession_append_right store _ sid hl]
      simp [lookupSession]
  | some ms =>
      simp only [hl]
      rw [lookupSession_appendToSession_self store sid _ ms hl]

/-- Replaying a sequence of appends extends the session history by exactly
those messages, in order. -/
theorem get_chat_history_replayAppends (store : ChatStore) (sid : String)
    (ops : List (String × String × Nat)) :
    get_chat_history (replayAppends store sid ops) sid =
      get_chat_history store sid ++ ops.map mkMessage := by
  induction ops generalizing store with
  | nil => simp [replayAppends]
  | cons p rest ih =>
      obtain ⟨role, content, t⟩ := p
      simp [replayAppends, ih, get_chat_history_add_self, mkMessage]

/-- The last-k slice equals dropping all but the final k elements. -/
theorem recent_window_eq_drop (l : List Message) (k : Nat) :
    recent_window l k = l.drop (l.length - k) := by
  unfold recent_window
  by_cases h : l.length > k
  · simp [h]
  · have h0 : l.length - k = 0 := Nat.sub_eq_zero_of_le (Nat.le_of_not_lt h)
    simp [h, h0]

/-- C7: starting from a session absent from the store, N appends leave
message_count = N, the history is exactly the appended messages in order, and
the recent-k window is exactly the last min(k, N) of them in append order. -/
theorem session_replay_recent_window (store : ChatStore) (sid : String)
    (ops : List (String × String × Nat)) (k : Nat)
    (h : lookupSession store sid = none) :
    get_session_message_count (replayAppends store sid ops) sid = ops.length ∧
    get_chat_history (replayAppends store sid ops) sid = ops.map mkMessage ∧
    recent_window (get_chat_history (replayAppends store sid ops) sid) k =
      (ops.map mkMessage).drop (ops.length - k) ∧
    (recent_window (get_chat_history (replayAppends store sid ops) sid) k).length =
      min k ops.length := by
  have hhist0 : get_chat_history store sid = [] := by simp [get_chat_history, h]
  have hmain : get_chat_history (replayAppends store sid ops) sid = ops.map mkMessage := by
    rw [get_chat_history_replayAppends, hhist0, List.nil_append]
  refine ⟨?_, hmain, ?_, ?_⟩
  · rw [get_session_message_count, hmain, List.length_map]
  · rw [hmain, recent_window_eq_drop, List.length_map]
  · rw [hmain, recent_window_eq_drop, List.length_drop, List.length_map]
    omega

/-- Witness for session_replay_recent_window at a concrete two-append run. -/
theorem session_replay_recent_window_witness :
    lookupSession ([] : ChatStore) "s1" = none ∧
    (get_session_message_count
        (replayAppends ([] : ChatStore) "s1" [("user", "hi", 0), ("assistant", "yo", 1)]) "s1" =
      ([("user", "hi", 0), ("assistant", "yo", 1)] : List (String × String × Nat)).length ∧
    get_chat_history
        (replayAppends ([] : ChatStore) "s1" [("user", "hi", 0), ("assistant", "yo", 1)]) "s1" =
      ([("user", "hi", 0), ("assistant", "yo", 1)] : List (String × String × Nat)).map mkMessage ∧
    recent_window
        (get_chat_history
          (replayAppends ([] : ChatStore) "s1" [("user", "hi", 0), ("assistant", "yo", 1)]) "s1") 1 =
      (([("user", "hi", 0), ("assistant", "yo", 1)] : List (String × String × Nat)).map mkMessage).drop
        (([("user", "hi", 0), ("assistant", "yo", 1)] : List (String × String × Nat)).length - 1) ∧
    (recent_window
        (get_chat_history
          (replayAppends ([] : ChatStore) "s1" [("user", "hi", 0), ("assistant", "yo", 1)]) "s1") 1).length =
      min 1 ([("user", "hi", 0), ("assistant", "yo", 1)] : List (String × String × Nat)).length) :=
  ⟨rfl, session_replay_recent_window [] "s1" [("user", "hi", 0), ("assistant", "yo", 1)] 1 rfl⟩

/-- C8: for a session_id with no entry in the store, history returns the empty
sequence, clear returns false, and the store is left unchanged. -/
theorem unknown_session_spec (store : ChatStore) (sid : String)
    (h : lookupSession store sid = none) :
    get_chat_history store sid = [] ∧
    (clear_chat_history store sid).1 = false ∧
    (clear_chat_history store sid).2 = store := by
  simp [get_chat_history, clear_chat_history, h]

/-- Witness for unknown_session_spec on a store holding one other session. -/
theorem unknown_session_spec_witness :
    lookupSession ([("a", [{ role := "user", content := "x", timestamp := 0 }])] : ChatStore) "b" = none ∧
    (get_chat_history ([("a", [{ role := "user", content := "x", timestamp := 0 }])] : ChatStore) "b" = [] ∧
    (clear_chat_history ([("a", [{ role := "user", content := "x", timestamp := 0 }])] : ChatStore) "b").1 = false ∧
    (clear_chat_history ([("a", [{ role := "user", content := "x", timestamp := 0 }])] : ChatStore) "b").2 =
      ([("a", [{ role := "user", content := "x", timestamp := 0 }])] : ChatStore)) :=
  ⟨by decide, unknown_session_spec _ "b" (by decide)⟩

/-- Appending a message to a session entry keeps every entry non-empty. -/
theorem storeInvariant_appendToSession (store : ChatStore) (sid : String) (m : Message)
    (h : storeInvariant store) :
    storeInvariant (appendToSession store sid m) := by
  induction store with
  | nil => intro e he; simp [appendToSession] at he
  | cons f rest ih =>
      obtain ⟨k, vs⟩ := f
      have hrest : storeInvariant rest := fun e he => h e (by simp [he])
      have hself := ih hrest
      by_cases hk : k = sid
      · intro e he
        simp only [appendToSession, hk, if_true, List.mem_cons] at he
        rcases he with he | he
        · subst he; simp
        · exact hself e he
      · intro e he
        simp only [appendToSession, hk, if_false, List.mem_cons] at he
        rcases he with he | he
        · subst he
          exact h (k, vs) (by simp)
        · exact hself e he

/-- Every entry surviving a deletion was in the original store. -/
theorem mem_removeSession (store : ChatStore) (sid : String) (e : String × List Message)
    (h : e ∈ removeSession store sid) : e ∈ store := by
  induction store with
  | nil => simp [removeSession] at h
  | cons f rest ih =>
      obtain ⟨k, vs⟩ := f
      by_cases hk : k = sid
      · simp only [removeSession, hk, if_true] at h
        exact List.mem_cons_of_mem _ (ih h)
      · simp only [removeSession, hk, if_false, List.mem_cons] at h
        rcases h with h | h
        · simp [h]
        · exact List.mem_cons_of_mem _ (ih h)

/-- An append keeps every entry of the store non-empty. -/
theorem storeInvariant_add (store : ChatStore) (sid role content : String) (t : Nat)
    (h : storeInvariant store) :
    storeInvariant (add_message_to_history store sid role content t) := by
  unfold add_message_to_history
  cases hl : lookupSession store sid with
  | some ms =>
      simpa using storeInvariant_appendToSession store sid _ h
  | none =>
      intro e he
      simp only [List.mem_append, List.mem_cons, List.not_mem_nil, or_false] at he
      rcases he with he | he
      · exact h e he
      · subst he; simp

/-- A clear keeps every entry of the store non-empty. -/
theorem storeInvariant_clear (store : ChatStore) (sid : String)
    (h : storeInvariant store) :
    storeInvariant (clear_chat_history store sid).2 := by
  unfold clear_chat_history
  cases hl : lookupSession store sid with
  | some ms =>
      intro e he
      exact h e (mem_removeSession store sid e (by simpa using he))
  | none => simpa using h

/-- Every store reachable by appends and clears from the empty store keeps the
invariant. -/
theorem storeInvariant_applyOps (store : ChatStore) (ops : List StoreOp)
    (h : storeInvariant store) : storeInvariant (applyOps store ops) := by
  induction ops generalizing store with
  | nil => exact h
  | cons op rest ih =>
      apply ih
      cases op with
      | append sid role content t => exact storeInvariant_add store sid role content t h
      | clear sid => exact storeInvariant_clear store sid h

/-- After a deletion the key is absent. -/
theorem lookupSession_removeSession_self (store : ChatStore) (sid : String) :
    lookupSession (removeSession store sid) sid = none := by
  induction store with
  | nil => rfl
  | cons f rest ih =>
      obtain ⟨k, vs⟩ := f
      by_cases hk : k = sid
      · simpa [removeSession, hk] using ih
      · simpa [removeSession, lookupSession, hk] using ih

/-- After a clear the session is gone from the store. -/
theorem lookupSession_clear_self (store : ChatStore) (sid : String) :
    lookupSession ((clear_chat_history store sid).2) sid = none := by
  unfold clear_chat_history
  cases hl : lookupSession store sid with
  | some ms => simpa using lookupSession_removeSession_self store sid
  | none => simpa using hl

/-- Under the non-empty invariant, get_all_sessions lists every stored key. -/
theorem get_all_sessions_ids (store : ChatStore) (h : storeInvariant store) :
    (get_all_sessions store).map SessionSummary.session_id = store.map Prod.fst := by
  induction store with
  | nil => rfl
  | cons e rest ih =>
      obtain ⟨k, vs⟩ := e
      have hrest : storeInvariant rest := fun e he => h e (by simp [he])
      cases vs with
      | nil => exact absurd rfl (h (k, []) (by simp))
      | cons m ms => simp [get_all_sessions, ih hrest]

/-- C10: every store reachable from the empty store by appends and clears has
only non-empty session entries, get_all_sessions enumerates exactly its stored
session_ids in order, and a clear removes its session wholly. -/
theorem store_sessions_invariant (ops : List StoreOp) (sid : String) :
    storeInvariant (applyOps [] ops) ∧
    (get_all_sessions (applyOps [] ops)).map SessionSummary.session_id =
      (applyOps [] ops).map Prod.fst ∧
    lookupSession ((clear_chat_history (applyOps [] ops) sid).2) sid = none := by
  have h0 : storeInvariant ([] : ChatStore) := by intro e he; simp at he
  have hinv := storeInvariant_applyOps [] ops h0
  exact ⟨hinv, get_all_sessions_ids _ hinv, lookupSession_clear_self _ sid⟩

/-- The last-10 slice of the history equals dropping all but the final 10. -/
theorem recent_messages_eq_drop (l : List Message) :
    recent_messages l = l.drop (l.length - 10) := by
  unfold recent_messages
  by_cases h : l.length > 10
  · simp [h]
  · have h0 : l.length - 10 = 0 := Nat.sub_eq_zero_of_le (Nat.le_of_not_lt h)
    simp [h, h0]

/-- The generation stage makes no call when the credential is absent, and
otherwise exactly one call carrying the built conversation context. -/
theorem generation_stage_calls (env : Env) (beh : AdapterBehavior)
    (chat_history : List Message) (text : String) :
    (generation_stage env beh chat_history text).2 =
      if env.gemini_key = false then []
      else [AdapterCall.llm (build_conversation_context chat_history text)] := by
  by_cases hG : env.gemini_key = false
  · simp [generation_stage, hG]
  · have hG2 : env.gemini_key = true := by revert hG; cases env.gemini_key <;> simp
    cases hl : beh.llm with
    | timeout => simp [generation_stage, hG2, hl]
    | exception => simp [generation_stage, hG2, hl]
    | success rtext =>
        by_cases hr : rtext = "" <;> simp [generation_stage, hG2, hl, hr]

/-- The synthesis stage makes no call when the credential is absent, and
otherwise exactly one call carrying the reply text. -/
theorem synthesis_stage_calls (env : Env) (beh : AdapterBehavior)
    (sid text llm_text : String) (mc : Nat) :
    (synthesis_stage env beh sid text llm_text mc).2 =
      if env.murf_key = false then [] else [AdapterCall.tts llm_text] := by
  by_cases hM : env.murf_key = false
  · simp [synthesis_stage, hM]
  · have hM2 : env.murf_key = true := by revert hM; cases env.murf_key <;> simp
    cases ht : beh.tts with
    | http code audioFile =>
        by_cases hc : code = 200 <;> simp [synthesis_stage, hM2, ht, hc]
    | timeout => simp [synthesis_stage, hM2, ht]
    | exception => simp [synthesis_stage, hM2, ht]

/-- On the main path (credential present, transcription completed, non-blank
text) the pipeline unfolds to the two appends, the generation stage and the
synthesis stage. -/
theorem agent_chat_main_path (env : Env) (beh : AdapterBehavior) (store : ChatStore)
    (sid : String) (t1 t2 : Nat) (text : String)
    (hA : env.assemblyai_key = true)
    (hTr : beh.transcription = TranscriptionOutcome.success text)
    (hblank : ¬ pyStrip text = "") :
    agent_chat_with_history env beh store sid t1 t2 =
      ((synthesis_stage env beh sid text
          (generation_stage env beh (get_chat_history store sid) text).1
          (get_session_message_count
            (add_message_to_history (add_message_to_history store sid "user" text t1) sid
              "assistant" (generation_stage env beh (get_chat_history store sid) text).1 t2) sid)).1,
       add_message_to_history (add_message_to_history store sid "user" text t1) sid
         "assistant" (generation_stage env beh (get_chat_history store sid) text).1 t2,
       AdapterCall.transcribe ::
         ((generation_stage env beh (get_chat_history store sid) text).2 ++
          (synthesis_stage env beh sid text
            (generation_stage env beh (get_chat_history store sid) text).1
            (get_session_message_count
              (add_message_to_history (add_message_to_history store sid "user" text t1) sid
                "assistant" (generation_stage env beh (get_chat_history store sid) text).1 t2) sid)).2)) := by
  simp only [agent_chat_with_history, hA, hTr]
  simp [hblank]

/-- The user append then the assistant append extend the session history by
exactly those two messages. -/
theorem history_after_two_adds (store : ChatStore) (sid u a : String) (t1 t2 : Nat) :
    get_chat_history
      (add_message_to_history (add_message_to_history store sid "user" u t1) sid "assistant" a t2)
      sid =
    get_chat_history store sid ++
      [{ role := "user", content := u, timestamp := t1 },
       { role := "assistant", content := a, timestamp := t2 }] := by
  rw [get_chat_history_add_self, get_chat_history_add_self, List.append_assoc]
  rfl

/-- After the user and assistant appends the session count grew by two. -/
theorem message_count_after_two_adds (store : ChatStore) (sid u a : String) (t1 t2 : Nat) :
    get_session_message_count
      (add_message_to_history (add_message_to_history store sid "user" u t1) sid "assistant" a t2)
      sid = get_session_message_count store sid + 2 := by
  unfold get_session_message_count
  rw [history_after_two_adds]
  simp

/-- C1: whenever the request reaches the generation stage, the one prompt
passed to the generator is exactly the fixed system preamble, then the last 10
messages the session held strictly before the new user message, each labeled
by role, then the new user utterance once, closed by the fixed tail. -/
theorem prompt_construction_spec (env : Env) (beh : AdapterBehavior) (store : ChatStore)
    (sid : String) (t1 t2 : Nat) (text : String)
    (hA : env.assemblyai_key = true)
    (hTr : beh.transcription = TranscriptionOutcome.success text)
    (hblank : ¬ pyStrip text = "")
    (hG : env.gemini_key = true) :
    ((agent_chat_with_history env beh store sid t1 t2).2.2).filter isLLMCall =
      [AdapterCall.llm (SYSTEM_PREAMBLE
         ++ render_history
              ((get_chat_history store sid).drop ((get_chat_history store sid).length - 10))
         ++ "User: " ++ text ++ PROMPT_TAIL)] := by
  rw [agent_chat_main_path env beh store sid t1 t2 text hA hTr hblank]
  rw [generation_stage_calls, synthesis_stage_calls]
  by_cases hM : env.murf_key = false <;>
    simp [hG, hM, isLLMCall, build_conversation_context, recent_messages_eq_drop]

/-- Witness for prompt_construction_spec on a concrete one-message session. -/
theorem prompt_construction_spec_witness :
    (⟨true, true, true⟩ : Env).assemblyai_key = true ∧
    (⟨TranscriptionOutcome.success "hello", LLMOutcome.success "hi there",
        TTSOutcome.http 200 (some "u"), none⟩ : AdapterBehavior).transcription =
      TranscriptionOutcome.success "hello" ∧
    ¬ pyStrip "hello" = "" ∧
    (⟨true, true, true⟩ : Env).gemini_key = true ∧
    ((agent_chat_with_history ⟨true, true, true⟩
        ⟨TranscriptionOutcome.success "hello", LLMOutcome.success "hi there",
          TTSOutcome.http 200 (some "u"), none⟩
        ([("s1", [{ role := "user", content := "old", timestamp := 0 }])] : ChatStore)
        "s1" 1 2).2.2).filter isLLMCall =
      [AdapterCall.llm (SYSTEM_PREAMBLE
         ++ render_history
              ((get_chat_history
                  ([("s1", [{ role := "user", content := "old", timestamp := 0 }])] : ChatStore)
                  "s1").drop
                ((get_chat_history
                  ([("s1", [{ role := "user", content := "old", timestamp := 0 }])] : ChatStore)
                  "s1").length - 10))
         ++ "User: " ++ "hello" ++ PROMPT_TAIL)] :=
  ⟨rfl, rfl, by decide,  rfl,
   prompt_construction_spec ⟨true, true, true⟩
     ⟨TranscriptionOutcome.success "hello", LLMOutcome.success "hi there",
       TTSOutcome.http 200 (some "u"), none⟩
     ([("s1", [{ role := "user", content := "old", timestamp := 0 }])] : ChatStore)
     "s1" 1 2 "hello" rfl rfl (by decide) rfl⟩

/-- C3: on a blank transcription the pipeline makes no generation call, the
response status is fallback, and the no_speech fallback text is routed to the
single synthesis attempt (one synthesis call, carrying exactly that text). -/
theorem empty_transcription_skips_generation (env : Env) (beh : AdapterBehavior)
    (store : ChatStore) (sid : String) (t1 t2 : Nat) (text : String)
    (hA : env.assemblyai_key = true)
    (hTr : beh.transcription = TranscriptionOutcome.success text)
    (hblank : pyStrip text = "")
    (hM : env.murf_key = true) :
    ((agent_chat_with_history env beh store sid t1 t2).2.2).filter isLLMCall = [] ∧
    ((agent_chat_with_history env beh store sid t1 t2).2.2).filter isTTSCall =
      [AdapterCall.tts (FALLBACK_RESPONSES "no_speech")] ∧
    (agent_chat_with_history env beh store sid t1 t2).1.status = "fallback" ∧
    (agent_chat_with_history env beh store sid t1 t2).1.fallback_text =
      some (FALLBACK_RESPONSES "no_speech") := by
  simp [agent_chat_with_history, hA, hTr, hblank, hM, generate_fallback_audio,
    isLLMCall, isTTSCall]

/-- Witness for empty_transcription_skips_generation on a whitespace-only
transcription. -/
theorem empty_transcription_skips_generation_witness :
    (⟨true, true, true⟩ : Env).assemblyai_key = true ∧
    (⟨TranscriptionOutcome.success "  ", LLMOutcome.success "hi",
        TTSOutcome.http 200 (some "u"), none⟩ : AdapterBehavior).transcription =
      TranscriptionOutcome.success "  " ∧
    pyStrip "  " = "" ∧
    (⟨true, true, true⟩ : Env).murf_key = true ∧
    (((agent_chat_with_history ⟨true, true, true⟩
        ⟨TranscriptionOutcome.success "  ", LLMOutcome.success "hi",
          TTSOutcome.http 200 (some "u"), none⟩ ([] : ChatStore) "s1" 0 1).2.2).filter isLLMCall = [] ∧
    (((agent_chat_with_history ⟨true, true, true⟩
        ⟨TranscriptionOutcome.success "  ", LLMOutcome.success "hi",
          TTSOutcome.http 200 (some "u"), none⟩ ([] : ChatStore) "s1" 0 1).2.2).filter isTTSCall =
      [AdapterCall.tts (FALLBACK_RESPONSES "no_speech")]) ∧
    ((agent_chat_with_history ⟨true, true, true⟩
        ⟨TranscriptionOutcome.success "  ", LLMOutcome.success "hi",
          TTSOutcome.http 200 (some "u"), none⟩ ([] : ChatStore) "s1" 0 1).1.status = "fallback") ∧
    ((agent_chat_with_history ⟨true, true, true⟩
        ⟨TranscriptionOutcome.success "  ", LLMOutcome.success "hi",
          TTSOutcome.http 200 (some "u"), none⟩ ([] : ChatStore) "s1" 0 1).1.fallback_text =
      some (FALLBACK_RESPONSES "no_speech"))) :=
  ⟨rfl, rfl, by decide, rfl,
   empty_transcription_skips_generation ⟨true, true, true⟩
     ⟨TranscriptionOutcome.success "  ", LLMOutcome.success "hi",
       TTSOutcome.http 200 (some "u"), none⟩ ([] : ChatStore) "s1" 0 1 "  "
     rfl rfl (by decide) rfl⟩

/-- The synthesis stage echoes the reply text unchanged in every branch. -/
theorem synthesis_stage_llm_response (env : Env) (beh : AdapterBehavior)
    (sid text llm_text : String) (mc : Nat) :
    (synthesis_stage env beh sid text llm_text mc).1.llm_response = llm_text := by
  by_cases hM : env.murf_key = false
  · simp [synthesis_stage, hM, synthesis_failure_response]
  · have hM2 : env.murf_key = true := by revert hM; cases env.murf_key <;> simp
    cases ht : beh.tts with
    | http code audioFile =>
        by_cases hc : code = 200 <;>
          simp [synthesis_stage, hM2, ht, hc, synthesis_failure_response]
    | timeout => simp [synthesis_stage, hM2, ht, synthesis_failure_response]
    | exception => simp [synthesis_stage, hM2, ht, synthesis_failure_response]

/-- The synthesis stage echoes the message count unchanged in every branch. -/
theorem synthesis_stage_message_count (env : Env) (beh : AdapterBehavior)
    (sid text llm_text : String) (mc : Nat) :
    (synthesis_stage env beh sid text llm_text mc).1.message_count = mc := by
  by_cases hM : env.murf_key = false
  · simp [synthesis_stage, hM, synthesis_failure_response]
  · have hM2 : env.murf_key = true := by revert hM; cases env.murf_key <;> simp
    cases ht : beh.tts with
    | http code audioFile =>
        by_cases hc : code = 200 <;>
          simp [synthesis_stage, hM2, ht, hc, synthesis_failure_response]
    | timeout => simp [synthesis_stage, hM2, ht, synthesis_failure_response]
    | exception => simp [synthesis_stage, hM2, ht, synthesis_failure_response]

/-- An HTTP 200 synthesis outcome yields the status-success response. -/
theorem synthesis_stage_success (env : Env) (beh : AdapterBehavior)
    (sid text llm_text : String) (mc : Nat) (audioFile : Option String)
    (hM : env.murf_key = true) (ht : beh.tts = TTSOutcome.http 200 audioFile) :
    (synthesis_stage env beh sid text llm_text mc).1 =
      { transcription := text, llm_response := llm_text, audio_url := audioFile,
        session_id := some sid, message_count := mc, status := "success",
        message := none, fallback_text := none, error_audio := false } := by
  simp [synthesis_stage, hM, ht]

/-- A failing synthesis outcome yields partial_success with no audio and a
branch-tagged fallback text built from the transcription and the reply. -/
theorem synthesis_stage_failure (env : Env) (beh : AdapterBehavior)
    (sid text llm_text : String) (mc : Nat)
    (hM : env.murf_key = true) (hf : ttsFails beh.tts) :
    (synthesis_stage env beh sid text llm_text mc).1.status = "partial_success" ∧
    (synthesis_stage env beh sid text llm_text mc).1.audio_url = none ∧
    ∃ tag, (synthesis_stage env beh sid text llm_text mc).1.fallback_text =
      some (chat_fallback_text text llm_text tag) := by
  cases ht : beh.tts with
  | http code audioFile =>
      rw [ht] at hf
      have hc : ¬ code = 200 := by simpa [ttsFails] using hf
      refine ⟨?_, ?_, "(Audio generation failed)", ?_⟩ <;>
        simp [synthesis_stage, hM, ht, hc, synthesis_failure_response]
  | timeout =>
      refine ⟨?_, ?_, "(Audio generation taking too long)", ?_⟩ <;>
        simp [synthesis_stage, hM, ht, synthesis_failure_response]
  | exception =>
      refine ⟨?_, ?_, "(Audio generation temporarily unavailable)", ?_⟩ <;>
        simp [synthesis_stage, hM, ht, synthesis_failure_response]

/-- The fallback text of the synthesis failure branches contains the
transcription. -/
theorem containsText_chat_fallback_left (t l tag : String) :
    containsText (chat_fallback_text t l tag) t := by
  refine ⟨"Your message: \x27", "\x27. My response: \x27" ++ l ++ "\x27 " ++ tag, ?_⟩
  unfold chat_fallback_text
  apply String.ext
  simp [String.data_append, List.append_assoc]

/-- The fallback text of the synthesis failure branches contains the reply. -/
theorem containsText_chat_fallback_right (t l tag : String) :
    containsText (chat_fallback_text t l tag) l := by
  refine ⟨"Your message: \x27" ++ t ++ "\x27. My response: \x27", "\x27 " ++ tag, ?_⟩
  unfold chat_fallback_text
  apply String.ext
  simp [String.data_append, List.append_assoc]

/-- C6: when the generation call times out, the reply and the assistant
message recorded in the Session Store are exactly the fixed timeout apology,
appended right after the user message; the store result is the same for every
synthesis outcome, since the append precedes the synthesis attempt. -/
theorem llm_timeout_assistant_message (env : Env) (beh : AdapterBehavior)
    (store : ChatStore) (sid : String) (t1 t2 : Nat) (text : String)
    (hA : env.assemblyai_key = true)
    (hTr : beh.transcription = TranscriptionOutcome.success text)
    (hblank : ¬ pyStrip text = "")
    (hG : env.gemini_key = true)
    (hL : beh.llm = LLMOutcome.timeout) :
    (agent_chat_with_history env beh store sid t1 t2).1.llm_response = LLM_TIMEOUT_TEXT ∧
    get_chat_history (agent_chat_with_history env beh store sid t1 t2).2.1 sid =
      get_chat_history store sid ++
        [{ role := "user", content := text, timestamp := t1 },
         { role := "assistant", content := LLM_TIMEOUT_TEXT, timestamp := t2 }] := by
  have hgen : (generation_stage env beh (get_chat_history store sid) text).1 =
      LLM_TIMEOUT_TEXT := by
    simp [generation_stage, hG, hL]
  rw [agent_chat_main_path env beh store sid t1 t2 text hA hTr hblank]
  constructor
  · simpa [hgen] using
      synthesis_stage_llm_response env beh sid text
        (generation_stage env beh (get_chat_history store sid) text).1
        (get_session_message_count
          (add_message_to_history (add_message_to_history store sid "user" text t1) sid
            "assistant" (generation_stage env beh (get_chat_history store sid) text).1 t2) sid)
  · rw [hgen]
    exact history_after_two_adds store sid text LLM_TIMEOUT_TEXT t1 t2

/-- Witness for llm_timeout_assistant_message at a concrete request. -/
theorem llm_timeout_assistant_message_witness :
    (⟨true, true, true⟩ : Env).assemblyai_key = true ∧
    (⟨TranscriptionOutcome.success "hello", LLMOutcome.timeout,
        TTSOutcome.http 200 (some "u"), none⟩ : AdapterBehavior).transcription =
      TranscriptionOutcome.success "hello" ∧
    ¬ pyStrip "hello" = "" ∧
    (⟨true, true, true⟩ : Env).gemini_key = true ∧
    (⟨TranscriptionOutcome.success "hello", LLMOutcome.timeout,
        TTSOutcome.http 200 (some "u"), none⟩ : AdapterBehavior).llm = LLMOutcome.timeout ∧
    ((agent_chat_with_history ⟨true, true, true⟩
        ⟨TranscriptionOutcome.success "hello", LLMOutcome.timeout,
          TTSOutcome.http 200 (some "u"), none⟩ ([] : ChatStore) "s1" 0 1).1.llm_response =
      LLM_TIMEOUT_TEXT ∧
    get_chat_history (agent_chat_with_history ⟨true, true, true⟩
        ⟨TranscriptionOutcome.success "hello", LLMOutcome.timeout,
          TTSOutcome.http 200 (some "u"), none⟩ ([] : ChatStore) "s1" 0 1).2.1 "s1" =
      get_chat_history ([] : ChatStore) "s1" ++
        [{ role := "user", content := "hello", timestamp := 0 },
         { role := "assistant", content := LLM_TIMEOUT_TEXT, timestamp := 1 }]) :=
  ⟨rfl, rfl, by decide, rfl, rfl,
   llm_timeout_assistant_message ⟨true, true, true⟩
     ⟨TranscriptionOutcome.success "hello", LLMOutcome.timeout,
       TTSOutcome.http 200 (some "u"), none⟩ ([] : ChatStore) "s1" 0 1 "hello"
     rfl rfl (by decide) rfl rfl⟩

/-- C9: whenever the transcription stage fails (missing credential, timeout,
adapter-reported error, raised exception, or blank text), the Session Store is
returned exactly as it was, and the fallback response reports message_count 0
and status fallback. -/
theorem transcription_failure_preserves_store (env : Env) (beh : AdapterBehavior)
    (store : ChatStore) (sid : String) (t1 t2 : Nat)
    (h : transcriptionFails env beh) :
    (agent_chat_with_history env beh store sid t1 t2).2.1 = store ∧
    (agent_chat_with_history env beh store sid t1 t2).1.message_count = 0 ∧
    (agent_chat_with_history env beh store sid t1 t2).1.status = "fallback" := by
  unfold transcriptionFails at h
  by_cases hA : env.assemblyai_key = false
  · simp [agent_chat_with_history, hA, generate_fallback_audio]
  · have hA2 : env.assemblyai_key = true := by revert hA; cases env.assemblyai_key <;> simp
    rcases h with h | h | h | h | ⟨t, ht, hblank⟩
    · exact absurd h hA
    · simp [agent_chat_with_history, hA2, h, generate_fallback_audio]
    · simp [agent_chat_with_history, hA2, h, generate_fallback_audio]
    · simp [agent_chat_with_history, hA2, h, generate_fallback_audio]
    · simp [agent_chat_with_history, hA2, ht, hblank, generate_fallback_audio]

/-- Witness for transcription_failure_preserves_store with the transcription
credential absent. -/
theorem transcription_failure_preserves_store_witness :
    transcriptionFails ⟨false, true, true⟩
      ⟨TranscriptionOutcome.success "hello", LLMOutcome.success "hi",
        TTSOutcome.http 200 (some "u"), none⟩ ∧
    ((agent_chat_with_history ⟨false, true, true⟩
        ⟨TranscriptionOutcome.success "hello", LLMOutcome.success "hi",
          TTSOutcome.http 200 (some "u"), none⟩ ([] : ChatStore) "s1" 0 1).2.1 = ([] : ChatStore) ∧
    (agent_chat_with_history ⟨false, true, true⟩
        ⟨TranscriptionOutcome.success "hello", LLMOutcome.success "hi",
          TTSOutcome.http 200 (some "u"), none⟩ ([] : ChatStore) "s1" 0 1).1.message_count = 0 ∧
    (agent_chat_with_history ⟨false, true, true⟩
        ⟨TranscriptionOutcome.success "hello", LLMOutcome.success "hi",
          TTSOutcome.http 200 (some "u"), none⟩ ([] : ChatStore) "s1" 0 1).1.status = "fallback") :=
  ⟨Or.inl rfl,
   transcription_failure_preserves_store ⟨false, true, true⟩
     ⟨TranscriptionOutcome.success "hello", LLMOutcome.success "hi",
       TTSOutcome.http 200 (some "u"), none⟩ ([] : ChatStore) "s1" 0 1 (Or.inl rfl)⟩

/-- C5: on a successful non-empty generation the text sent to synthesis and
stored as the assistant message is the truncation of the stripped reply:
over 3000 units it is the first 2900 units plus the fixed suffix, at most
3000 units it is the stripped reply unchanged. -/
theorem reply_truncation_spec (env : Env) (beh : AdapterBehavior)
    (store : ChatStore) (sid : String) (t1 t2 : Nat) (text r : String)
    (hA : env.assemblyai_key = true)
    (hTr : beh.transcription = TranscriptionOutcome.success text)
    (hblank : ¬ pyStrip text = "")
    (hG : env.gemini_key = true)
    (hL : beh.llm = LLMOutcome.success r)
    (hr : ¬ r = "")
    (hM : env.murf_key = true) :
    (agent_chat_with_history env beh store sid t1 t2).1.llm_response =
      truncate_reply (pyStrip r) ∧
    ((agent_chat_with_history env beh store sid t1 t2).2.2).filter isTTSCall =
      [AdapterCall.tts (truncate_reply (pyStrip r))] ∧
    get_chat_history (agent_chat_with_history env beh store sid t1 t2).2.1 sid =
      get_chat_history store sid ++
        [{ role := "user", content := text, timestamp := t1 },
         { role := "assistant", content := truncate_reply (pyStrip r), timestamp := t2 }] ∧
    ((pyStrip r).length > 3000 →
      truncate_reply (pyStrip r) = pyTake (pyStrip r) 2900 ++ TRUNCATION_SUFFIX) ∧
    ((pyStrip r).length ≤ 3000 → truncate_reply (pyStrip r) = pyStrip r) := by
  have hgen : (generation_stage env beh (get_chat_history store sid) text).1 =
      truncate_reply (pyStrip r) := by
    simp [generation_stage, hG, hL, hr]
  rw [agent_chat_main_path env beh store sid t1 t2 text hA hTr hblank]
  refine ⟨?_, ?_, ?_, ?_, ?_⟩
  · rw [synthesis_stage_llm_response, hgen]
  · rw [generation_stage_calls, synthesis_stage_calls, hgen]
    simp [hG, hM, isTTSCall]
  · rw [hgen]
    exact history_after_two_adds store sid text (truncate_reply (pyStrip r)) t1 t2
  · intro hlong
    simp [truncate_reply, hlong]
  · intro hshort
    have hnot : ¬ (pyStrip r).length > 3000 := by omega
    simp [truncate_reply, hnot]

/-- Witness for reply_truncation_spec on a short concrete reply. -/
theorem reply_truncation_spec_witness :
    (⟨true, true, true⟩ : Env).assemblyai_key = true ∧
    (⟨TranscriptionOutcome.success "hello", LLMOutcome.success " hi there ",
        TTSOutcome.http 200 (some "u"), none⟩ : AdapterBehavior).transcription =
      TranscriptionOutcome.success "hello" ∧
    ¬ pyStrip "hello" = "" ∧
    (⟨true, true, true⟩ : Env).gemini_key = true ∧
    (⟨TranscriptionOutcome.success "hello", LLMOutcome.success " hi there ",
        TTSOutcome.http 200 (some "u"), none⟩ : AdapterBehavior).llm =
      LLMOutcome.success " hi there " ∧
    ¬ " hi there " = "" ∧
    (⟨true, true, true⟩ : Env).murf_key = true ∧
    ((agent_chat_with_history ⟨true, true, true⟩
        ⟨TranscriptionOutcome.success "hello", LLMOutcome.success " hi there ",
          TTSOutcome.http 200 (some "u"), none⟩ ([] : ChatStore) "s1" 0 1).1.llm_response =
      truncate_reply (pyStrip " hi there ") ∧
    ((agent_chat_with_history ⟨true, true, true⟩
        ⟨TranscriptionOutcome.success "hello", LLMOutcome.success " hi there ",
          TTSOutcome.http 200 (some "u"), none⟩ ([] : ChatStore) "s1" 0 1).2.2).filter isTTSCall =
      [AdapterCall.tts (truncate_reply (pyStrip " hi there "))] ∧
    get_chat_history (agent_chat_with_history ⟨true, true, true⟩
        ⟨TranscriptionOutcome.success "hello", LLMOutcome.success " hi there ",
          TTSOutcome.http 200 (some "u"), none⟩ ([] : ChatStore) "s1" 0 1).2.1 "s1" =
      get_chat_history ([] : ChatStore) "s1" ++
        [{ role := "user", content := "hello", timestamp := 0 },
         { role := "assistant", content := truncate_reply (pyStrip " hi there "), timestamp := 1 }] ∧
    ((pyStrip " hi there ").length > 3000 →
      truncate_reply (pyStrip " hi there ") =
        pyTake (pyStrip " hi there ") 2900 ++ TRUNCATION_SUFFIX) ∧
    ((pyStrip " hi there ").length ≤ 3000 →
      truncate_reply (pyStrip " hi there ") = pyStrip " hi there ")) :=
  ⟨rfl, rfl, by decide, rfl, rfl, by decide, rfl,
   reply_truncation_spec ⟨true, true, true⟩
     ⟨TranscriptionOutcome.success "hello", LLMOutcome.success " hi there ",
       TTSOutcome.http 200 (some "u"), none⟩ ([] : ChatStore) "s1" 0 1 "hello" " hi there "
     rfl rfl (by decide) rfl rfl (by decide) rfl⟩

/-- C4: when generation succeeds but the synthesis call fails (non-200 status,
timeout, or exception), the response has status partial_success, no audio
reference, and a fallback_text containing both the transcription and the
reply text. -/
theorem synthesis_failure_degradation_spec (env : Env) (beh : AdapterBehavior)
    (store : ChatStore) (sid : String) (t1 t2 : Nat) (text r : String)
    (hA : env.assemblyai_key = true)
    (hTr : beh.transcription = TranscriptionOutcome.success text)
    (hblank : ¬ pyStrip text = "")
    (hG : env.gemini_key = true)
    (hL : beh.llm = LLMOutcome.success r)
    (hr : ¬ r = "")
    (hM : env.murf_key = true)
    (hf : ttsFails beh.tts) :
    (agent_chat_with_history env beh store sid t1 t2).1.status = "partial_success" ∧
    (agent_chat_with_history env beh store sid t1 t2).1.audio_url = none ∧
    ∃ ft, (agent_chat_with_history env beh store sid t1 t2).1.fallback_text = some ft ∧
      containsText ft text ∧
      containsText ft ((agent_chat_with_history env beh store sid t1 t2).1.llm_response) := by
  rw [agent_chat_main_path env beh store sid t1 t2 text hA hTr hblank]
  obtain ⟨h1, h2, tag, h3⟩ :=
    synthesis_stage_failure env beh sid text
      (generation_stage env beh (get_chat_history store sid) text).1
      (get_session_message_count
        (add_message_to_history (add_message_to_history store sid "user" text t1) sid
          "assistant" (generation_stage env beh (get_chat_history store sid) text).1 t2) sid)
      hM hf
  refine ⟨h1, h2,
    chat_fallback_text text (generation_stage env beh (get_chat_history store sid) text).1 tag,
    h3, containsText_chat_fallback_left _ _ _, ?_⟩
  rw [synthesis_stage_llm_response]
  exact containsText_chat_fallback_right _ _ _

/-- Witness for synthesis_failure_degradation_spec with a 500 synthesis
response. -/
theorem synthesis_failure_degradation_spec_witness :
    (⟨true, true, true⟩ : Env).assemblyai_key = true ∧
    (⟨TranscriptionOutcome.success "hello", LLMOutcome.success "hi",
        TTSOutcome.http 500 none, none⟩ : AdapterBehavior).transcription =
      TranscriptionOutcome.success "hello" ∧
    ¬ pyStrip "hello" = "" ∧
    (⟨true, true, true⟩ : Env).gemini_key = true ∧
    (⟨TranscriptionOutcome.success "hello", LLMOutcome.success "hi",
        TTSOutcome.http 500 none, none⟩ : AdapterBehavior).llm = LLMOutcome.success "hi" ∧
    ¬ "hi" = "" ∧
    (⟨true, true, true⟩ : Env).murf_key = true ∧
    ttsFails (⟨TranscriptionOutcome.success "hello", LLMOutcome.success "hi",
        TTSOutcome.http 500 none, none⟩ : AdapterBehavior).tts ∧
    ((agent_chat_with_history ⟨true, true, true⟩
        ⟨TranscriptionOutcome.success "hello", LLMOutcome.success "hi",
          TTSOutcome.http 500 none, none⟩ ([] : ChatStore) "s1" 0 1).1.status = "partial_success" ∧
    (agent_chat_with_history ⟨true, true, true⟩
        ⟨TranscriptionOutcome.success "hello", LLMOutcome.success "hi",
          TTSOutcome.http 500 none, none⟩ ([] : ChatStore) "s1" 0 1).1.audio_url = none ∧
    ∃ ft, (agent_chat_with_history ⟨true, true, true⟩
        ⟨TranscriptionOutcome.success "hello", LLMOutcome.success "hi",
          TTSOutcome.http 500 none, none⟩ ([] : ChatStore) "s1" 0 1).1.fallback_text = some ft ∧
      containsText ft "hello" ∧
      containsText ft ((agent_chat_with_history ⟨true, true, true⟩
        ⟨TranscriptionOutcome.success "hello", LLMOutcome.success "hi",
          TTSOutcome.http 500 none, none⟩ ([] : ChatStore) "s1" 0 1).1.llm_response)) :=
  ⟨rfl, rfl, by decide, rfl, rfl, by decide, rfl, by simp [ttsFails],
   synthesis_failure_degradation_spec ⟨true, true, true⟩
     ⟨TranscriptionOutcome.success "hello", LLMOutcome.success "hi",
       TTSOutcome.http 500 none, none⟩ ([] : ChatStore) "s1" 0 1 "hello" "hi"
     rfl rfl (by decide) rfl rfl (by decide) rfl (by simp [ttsFails])⟩

/-- C2 counterexample: with the generator credential absent but transcription
and synthesis succeeding, the code answers the fixed llm_error fallback with
message_count 2 yet status success, refuting the claimed partial_success or
fallback status at this concrete input. -/
theorem generator_unavailable_status_counterexample :
    (agent_chat_with_history ⟨true, false, true⟩
        ⟨TranscriptionOutcome.success "hello", LLMOutcome.success "hi",
          TTSOutcome.http 200 (some "u"), none⟩ ([] : ChatStore) "s1" 0 1).1.llm_response =
      FALLBACK_RESPONSES "llm_error" ∧
    (agent_chat_with_history ⟨true, false, true⟩
        ⟨TranscriptionOutcome.success "hello", LLMOutcome.success "hi",
          TTSOutcome.http 200 (some "u"), none⟩ ([] : ChatStore) "s1" 0 1).1.message_count = 2 ∧
    ¬ ((agent_chat_with_history ⟨true, false, true⟩
          ⟨TranscriptionOutcome.success "hello", LLMOutcome.success "hi",
            TTSOutcome.http 200 (some "u"), none⟩ ([] : ChatStore) "s1" 0 1).1.status =
        "partial_success" ∨
      (agent_chat_with_history ⟨true, false, true⟩
          ⟨TranscriptionOutcome.success "hello", LLMOutcome.success "hi",
            TTSOutcome.http 200 (some "u"), none⟩ ([] : ChatStore) "s1" 0 1).1.status =
        "fallback") := by
  refine ⟨rfl, rfl, ?_⟩
  decide

/-- C2 amended: when the generator credential is absent but transcription and
synthesis succeed, reply_text equals the fixed llm_error fallback string and
message_count grows by exactly 2, but the returned status is success. -/
theorem generator_unavailable_amended (env : Env) (beh : AdapterBehavior)
    (store : ChatStore) (sid : String) (t1 t2 : Nat) (text : String)
    (audioFile : Option String)
    (hA : env.assemblyai_key = true)
    (hTr : beh.transcription = TranscriptionOutcome.success text)
    (hblank : ¬ pyStrip text = "")
    (hG : env.gemini_key = false)
    (hM : env.murf_key = true)
    (ht : beh.tts = TTSOutcome.http 200 audioFile) :
    (agent_chat_with_history env beh store sid t1 t2).1.llm_response =
      FALLBACK_RESPONSES "llm_error" ∧
    (agent_chat_with_history env beh store sid t1 t2).1.message_count =
      get_session_message_count store sid + 2 ∧
    (agent_chat_with_history env beh store sid t1 t2).1.status = "success" := by
  have hgen : (generation_stage env beh (get_chat_history store sid) text).1 =
      FALLBACK_RESPONSES "llm_error" := by
    simp [generation_stage, hG]
  rw [agent_chat_main_path env beh store sid t1 t2 text hA hTr hblank]
  rw [synthesis_stage_success env beh sid text _ _ audioFile hM ht]
  refine ⟨hgen, ?_, rfl⟩
  rw [hgen]
  exact message_count_after_two_adds store sid text (FALLBACK_RESPONSES "llm_error") t1 t2

/-- Witness for generator_unavailable_amended at a concrete request. -/
theorem generator_unavailable_amended_witness :
    (⟨true, false, true⟩ : Env).assemblyai_key = true ∧
    (⟨TranscriptionOutcome.success "hello", LLMOutcome.success "hi",
        TTSOutcome.http 200 (some "u"), none⟩ : AdapterBehavior).transcription =
      TranscriptionOutcome.success "hello" ∧
    ¬ pyStrip "hello" = "" ∧
    (⟨true, false, true⟩ : Env).gemini_key = false ∧
    (⟨true, false, true⟩ : Env).murf_key = true ∧
    (⟨TranscriptionOutcome.success "hello", LLMOutcome.success "hi",
        TTSOutcome.http 200 (some "u"), none⟩ : AdapterBehavior).tts =
      TTSOutcome.http 200 (some "u") ∧
    ((agent_chat_with_history ⟨true, false, true⟩
        ⟨TranscriptionOutcome.success "hello", LLMOutcome.success "hi",
          TTSOutcome.http 200 (some "u"), none⟩ ([] : ChatStore) "s1" 0 1).1.llm_response =
      FALLBACK_RESPONSES "llm_error" ∧
    (agent_chat_with_history ⟨true, false, true⟩
        ⟨TranscriptionOutcome.success "hello", LLMOutcome.success "hi",
          TTSOutcome.http 200 (some "u"), none⟩ ([] : ChatStore) "s1" 0 1).1.message_count =
      get_session_message_count ([] : ChatStore) "s1" + 2 ∧
    (agent_chat_with_history ⟨true, false, true⟩
        ⟨TranscriptionOutcome.success "hello", LLMOutcome.success "hi",
          TTSOutcome.http 200 (some "u"), none⟩ ([] : ChatStore) "s1" 0 1).1.status = "success") :=
  ⟨rfl, rfl, by decide, rfl, rfl, rfl,
   generator_unavailable_amended ⟨true, false, true⟩
     ⟨TranscriptionOutcome.success "hello", LLMOutcome.success "hi",
       TTSOutcome.http 200 (some "u"), none⟩ ([] : ChatStore) "s1" 0 1 "hello" (some "u")
     rfl rfl (by decide) rfl rfl rfl⟩
